import Mathlib

/-!
Shallow embedding of `src/app.py` (a minimal Flask application).

The application keeps one piece of mutable state, the global integer
`counter` (initialized to 0 at process start).  Python integers are
unbounded, so the counter is modelled as a `Nat`.  Each route handler is
modelled as a function from the process state to a pair of the new state
and the response value.  `datetime.now()` is an external clock
collaborator; its rendered value `str(datetime.now())` is passed to the
`date` handler as an explicit `String` parameter.
-/

/-- A flashcard record, from the `cards` list in `src/app.py`:
a dict with `question` and `answer` string fields. -/
structure Card where
  question : String
  answer : String
  deriving Repr, DecidableEq

/-- The static `cards` list of `src/app.py` (lines 9-13). -/
def cards : List Card :=
  [⟨"Hola", "Hello"⟩, ⟨"Merci", "Thanks"⟩, ⟨"Ciao", "Bye"⟩]

/-- The mutable process-wide state of `app.py`: the global `counter`
(line 7), initialized to 0. -/
structure AppState where
  counter : Nat
  deriving Repr, DecidableEq

/-- The state at process start: `counter = 0`. -/
def initialState : AppState := ⟨0⟩

/-- Handler for `/` (lines 15-17): renders the static `cards` list.
The template rendering itself is an external collaborator; the data
handed to it is the `cards` list, unchanged. -/
def home (s : AppState) : AppState × List Card :=
  (s, cards)

/-- Handler for `/about` (lines 19-21): returns a literal string. -/
def about (s : AppState) : AppState × String :=
  (s, "This is a simple mini project using Flask basics.")

/-- Handler for `/date` (lines 23-25): returns the literal
`"Current server time: "` concatenated with `str(datetime.now())`,
the latter supplied here as the `now` parameter. -/
def date (now : String) (s : AppState) : AppState × String :=
  (s, "Current server time: " ++ now)

/-- Handler for `/count_views` (lines 27-31): increments the global
`counter` and returns the f-string
`f"This page was viewed {counter} times."` built from the
post-increment value. -/
def count_views (s : AppState) : AppState × String :=
  let c := s.counter + 1
  (⟨c⟩, "This page was viewed " ++ toString c ++ " times.")

/-- Handler for `/hello/<name>` (lines 33-35, the function is called
`name` in the source): returns the f-string `f"Hello {name}!"`. -/
def name (n : String) (s : AppState) : AppState × String :=
  (s, "Hello " ++ n ++ "!")

/-- One incoming HTTP request, identifying the route invoked together
with the route's inputs (the `now` value sampled for `/date`, the path
segment for `/hello/<name>`). -/
inductive Request where
  | home : Request
  | about : Request
  | date (now : String) : Request
  | countViews : Request
  | hello (n : String) : Request
  deriving Repr, DecidableEq

/-- The state transition performed by dispatching one request to its
handler (responses discarded). -/
def step (r : Request) (s : AppState) : AppState :=
  match r with
  | .home => (home s).1
  | .about => (about s).1
  | .date now => (date now s).1
  | .countViews => (count_views s).1
  | .hello n => (name n s).1

/-- Dispatching a whole sequence of requests, in order. -/
def run (rs : List Request) (s : AppState) : AppState :=
  rs.foldl (fun s r => step r s) s

/-- The number of `/count_views` invocations in a request sequence. -/
def countViewRequests (rs : List Request) : Nat :=
  rs.countP (fun r => match r with | .countViews => true | _ => false)

/-- `N` successive invocations of `count_views` from a given state
(responses discarded). -/
def runCountViews : Nat → AppState → AppState
  | 0, s => s
  | n + 1, s => runCountViews n (count_views s).1

/-! ### Basic lemmas about the embedding -/

/-- Each `count_views` invocation increments the counter by exactly 1. -/
theorem count_views_counter (s : AppState) :
    (count_views s).1.counter = s.counter + 1 := rfl

/-- `N` invocations of `count_views` add exactly `N` to the counter. -/
theorem runCountViews_counter (n : Nat) (s : AppState) :
    (runCountViews n s).counter = s.counter + n := by
  induction n generalizing s with
  | zero => rfl
  | succ m ih =>
    simp only [runCountViews, ih, count_views_counter]
    omega

/-- A single dispatched request adds 1 to the counter when it is a
`/count_views` request and leaves the counter unchanged otherwise. -/
theorem step_counter (r : Request) (s : AppState) :
    (step r s).counter =
      s.counter + (match r with | .countViews => 1 | _ => 0) := by
  cases r <;> rfl

/-- Running a request sequence from any state adds exactly the number of
`/count_views` requests to the counter. -/
theorem run_counter (rs : List Request) (s : AppState) :
    (run rs s).counter = s.counter + countViewRequests rs := by
  induction rs generalizing s with
  | nil => rfl
  | cons r rest ih =>
    simp only [run, List.foldl_cons, countViewRequests, List.countP_cons]
    have h := ih (step r s)
    simp only [run] at h
    rw [h, step_counter]
    cases r <;> simp [countViewRequests] <;> omega

/-! ### Claims -/

/-- Claim C1: for every `N ≥ 1`, after `N` successive single-threaded
invocations of `count_views` starting from process start
(`counter = 0`), the counter equals `N`, and the `N`th invocation
returns the string `"This page was viewed {N} times."` with `N` the
post-increment value. -/
theorem c1_count_views_nth (N : Nat) (h : 1 ≤ N) :
    (runCountViews N initialState).counter = N ∧
    (count_views (runCountViews (N - 1) initialState)).2 =
      "This page was viewed " ++ toString N ++ " times." := by
  have hc : ∀ M : Nat, (runCountViews M initialState).counter = M := by
    intro M
    rw [runCountViews_counter]
    simp [initialState]
  constructor
  · exact hc N
  · show "This page was viewed " ++
        toString ((runCountViews (N - 1) initialState).counter + 1) ++
        " times." = _
    rw [hc]
    have hN : N - 1 + 1 = N := by omega
    rw [hN]

/-- Witness for C1 at `N = 3`. -/
theorem c1_count_views_nth_witness :
    (runCountViews 3 initialState).counter = 3 ∧
    (count_views (runCountViews 2 initialState)).2 =
      "This page was viewed 3 times." :=
  c1_count_views_nth 3 (by decide)

/-- Claim C2: starting from the initial state (`counter = 0`), after any
sequence of requests the counter equals the number of `/count_views`
invocations in that sequence; every single step either leaves the
counter unchanged or increments it by exactly 1 (so it never decreases
and is never reset). -/
theorem c2_counter_invariant :
    (∀ rs : List Request,
        (run rs initialState).counter = countViewRequests rs) ∧
    (∀ (r : Request) (s : AppState),
        (step r s).counter = s.counter + 1 ∨
        (step r s).counter = s.counter) := by
  constructor
  · intro rs
    rw [run_counter]
    simp [initialState]
  · intro r s
    cases r
    case countViews => left; rfl
    all_goals right; rfl

/-- Claim C3: only `count_views` mutates the state: `home`, `about`,
`date` and `name` (the hello handler) return the state unchanged, the
card sequence handed to the renderer is unaffected by any request, and
repeated invocation of `about` and of `name` with the same input yields
the same response. -/
theorem c3_frame_purity :
    (∀ s : AppState, (home s).1 = s) ∧
    (∀ s : AppState, (about s).1 = s) ∧
    (∀ (now : String) (s : AppState), (date now s).1 = s) ∧
    (∀ (n : String) (s : AppState), (name n s).1 = s) ∧
    (∀ (r : Request) (s : AppState), (home (step r s)).2 = (home s).2) ∧
    (∀ s : AppState, (about ((about s).1)).2 = (about s).2) ∧
    (∀ (n : String) (s : AppState),
        (name n ((name n s).1)).2 = (name n s).2) := by
  refine ⟨fun s => rfl, fun s => rfl, fun now s => rfl, fun n s => rfl,
    fun r s => rfl, fun s => rfl, fun n s => rfl⟩

/-- Claim C4: the counter is exact unbounded-precision arithmetic: every
`N` is reachable (after `N` invocations from the initial state the
counter is exactly `N`), and each increment yields a strictly larger
value — it never wraps to a smaller one. -/
theorem c4_no_overflow :
    (∀ N : Nat, (runCountViews N initialState).counter = N) ∧
    (∀ s : AppState, s.counter < (count_views s).1.counter) := by
  constructor
  · intro N
    rw [runCountViews_counter]
    simp [initialState]
  · intro s
    rw [count_views_counter]
    omega

/-- Claim C5: for every path-segment string `n`, the hello handler
returns exactly `"Hello " ++ n ++ "!"` — the input interpolated
verbatim — and in particular returns `"Hello World!"` on input
`"World"`. -/
theorem c5_hello_verbatim :
    (∀ (n : String) (s : AppState), (name n s).2 = "Hello " ++ n ++ "!") ∧
    (∀ s : AppState, (name "World" s).2 = "Hello World!") :=
  ⟨fun n s => rfl, fun s => rfl⟩

/-- Claim C6: `about` returns the literal string
`"This is a simple mini project using Flask basics."` in every state. -/
theorem c6_about_literal (s : AppState) :
    (about s).2 = "This is a simple mini project using Flask basics." :=
  rfl

/-- Claim C7: the homepage handler always returns the same fixed
sequence of exactly the three cards `("Hola","Hello")`,
`("Merci","Thanks")`, `("Ciao","Bye")`, in that order, in every state;
and no request ever changes what it returns. -/
theorem c7_cards_fixed :
    cards = [⟨"Hola", "Hello"⟩, ⟨"Merci", "Thanks"⟩, ⟨"Ciao", "Bye"⟩] ∧
    cards.length = 3 ∧
    (∀ s : AppState, (home s).2 = cards) ∧
    (∀ (rs : List Request) (s : AppState),
        (home (run rs s)).2 = (home s).2) :=
  ⟨rfl, rfl, fun s => rfl, fun rs s => rfl⟩

/-- Claim C8: for every rendered wall-clock value `now` supplied by the
clock collaborator (`str(datetime.now())`, sampled while the request is
being handled), the `/date` response is exactly the prefix
`"Current server time: "` followed by that rendering, and the state is
unchanged. -/
theorem c8_date_format (now : String) (s : AppState) :
    (date now s).2 = "Current server time: " ++ now ∧
    (date now s).1 = s :=
  ⟨rfl, rfl⟩

/-- Claim C9: `count_views` has no error conditions: for every starting
state it totally produces this unique result — the incremented state and
the corresponding response string; no failure branch exists. -/
theorem c9_count_views_total (s : AppState) :
    count_views s =
      (⟨s.counter + 1⟩,
       "This page was viewed " ++ toString (s.counter + 1) ++ " times.") :=
  rfl

/-- Claim C10: noninterference of the counter with the stateless routes:
in any two states, `about` returns the same string, and the hello
handler returns the same string for the same input — their outputs never
depend on the counter. -/
theorem c10_noninterference (s1 s2 : AppState) (n : String) :
    (about s1).2 = (about s2).2 ∧ (name n s1).2 = (name n s2).2 :=
  ⟨rfl, rfl⟩
